import Mathlib

/-!
Verification of the ROI scenario engine (`src/lib/roi-calculator.ts`) of the
GTMDeepDiver repository, shallowly embedded over exact rationals.

Modelling choices:
* JavaScript numbers are modelled as `ℚ`; `nPeople` is modelled as `ℤ`
  because the `RoiInputs` schema (`src/lib/schemas.ts`) declares it
  `z.number().int()` and the spec's data model gives it type `integer`.
* `Math.round x` is modelled as `⌊x + 1/2⌋` (round half toward positive
  infinity), which is its behaviour on all finite arguments.
* The `Infinity` payback value is modelled as the `none` case of an
  `Option ℚ`, the explicit "unbounded" sentinel; `Math.round` maps
  `Infinity` to itself, so rounding acts on the sentinel via `Option.map`.
* The two `throw new Error(...)` branches of `calculateRoiScenarios` are
  modelled with `Except String`.
-/

namespace RoiCalculator

/-- The `RoiInputs` record of `src/lib/schemas.ts` (field shape only; the
schema's range refinements are stated separately as `schemaValid`). -/
structure RoiInputs where
  nPeople : ℤ
  costPerHour : ℚ
  hoursSavedPerPersonPerMonth : ℚ
  errorCostAnnual : ℚ
  errorReductionPct : ℚ
  cloudSpendAnnual : ℚ
  cloudReductionPct : ℚ
  riskCostAnnual : ℚ
  riskReductionPct : ℚ
  licenseCostAnnual : ℚ
  implementationOneTime : ℚ
  deriving DecidableEq

/-- The `RoiScenario` record of `src/lib/schemas.ts`. `totalBenefit` and
`year1Net` are integral after `Math.round`; `paybackMonths` is `none` when
the source holds `Infinity`. -/
@[ext]
structure RoiScenario where
  totalBenefit : ℤ
  year1Net : ℤ
  roiPct : ℚ
  paybackMonths : Option ℚ
  deriving DecidableEq

/-- The `RoiOutput` record of `src/lib/schemas.ts`. -/
structure RoiOutput where
  low : RoiScenario
  mostLikely : RoiScenario
  high : RoiScenario
  deriving DecidableEq

/-- JavaScript `Math.round` on a finite argument: round half toward `+∞`. -/
def jsRound (q : ℚ) : ℤ := ⌊q + 1 / 2⌋

/-- `Math.round(q * 10) / 10`: round to one decimal place. -/
def round1 (q : ℚ) : ℚ := (jsRound (q * 10) : ℚ) / 10

/-- The range refinements of the `RoiInputs` zod schema
(`src/lib/schemas.ts` lines 130-142): `nPeople ≥ 1`, every monetary field
and the hours field `≥ 0`, every reduction percentage in `[0, 1]`. -/
def schemaValid (i : RoiInputs) : Prop :=
  1 ≤ i.nPeople ∧ 0 ≤ i.costPerHour ∧ 0 ≤ i.hoursSavedPerPersonPerMonth ∧
  0 ≤ i.errorCostAnnual ∧ 0 ≤ i.errorReductionPct ∧ i.errorReductionPct ≤ 1 ∧
  0 ≤ i.cloudSpendAnnual ∧ 0 ≤ i.cloudReductionPct ∧ i.cloudReductionPct ≤ 1 ∧
  0 ≤ i.riskCostAnnual ∧ 0 ≤ i.riskReductionPct ∧ i.riskReductionPct ≤ 1 ∧
  0 ≤ i.licenseCostAnnual ∧ 0 ≤ i.implementationOneTime

instance (i : RoiInputs) : Decidable (schemaValid i) := by
  unfold schemaValid; infer_instance

/-- `calculateScenario` of `src/lib/roi-calculator.ts` (lines 15-46),
with the source's intermediate `const` bindings as `let`s and the output
rounding applied once, at record construction, exactly as in the source. -/
def calculateScenario (inputs : RoiInputs) : RoiScenario :=
  let laborSavings :=
    (inputs.nPeople : ℚ) * inputs.hoursSavedPerPersonPerMonth * 12 * inputs.costPerHour
  let qualitySavings := inputs.errorCostAnnual * inputs.errorReductionPct
  let cloudSavings := inputs.cloudSpendAnnual * inputs.cloudReductionPct
  let riskAvoidance := inputs.riskCostAnnual * inputs.riskReductionPct
  let totalBenefit := laborSavings + qualitySavings + cloudSavings + riskAvoidance
  let totalCosts := inputs.licenseCostAnnual + inputs.implementationOneTime
  let year1Net := totalBenefit - totalCosts
  let roiPct := if totalCosts > 0 then (totalBenefit - totalCosts) / totalCosts * 100 else 0
  let monthlyBenefit := totalBenefit / 12
  let paybackMonths :=
    if monthlyBenefit > 0 then some (totalCosts / monthlyBenefit) else none
  { totalBenefit := jsRound totalBenefit
    year1Net := jsRound year1Net
    roiPct := round1 roiPct
    paybackMonths := paybackMonths.map round1 }

/-- `scaleInputs` of `src/lib/roi-calculator.ts` (lines 54-63): scale the
benefit-driving fields, clamp the reduction percentages at `1`, copy every
other field. -/
def scaleInputs (inputs : RoiInputs) (scaleFactor : ℚ) : RoiInputs :=
  { inputs with
    hoursSavedPerPersonPerMonth := inputs.hoursSavedPerPersonPerMonth * scaleFactor
    errorReductionPct := min 1 (inputs.errorReductionPct * scaleFactor)
    cloudReductionPct := min 1 (inputs.cloudReductionPct * scaleFactor)
    riskReductionPct := min 1 (inputs.riskReductionPct * scaleFactor) }

/-- `calculateRoiScenarios` of `src/lib/roi-calculator.ts` (lines 70-95):
validate, then build the three scenarios with the fixed 0.75 / 1.00 / 1.25
sensitivity factors. The source's `throw` is the `Except.error` case. -/
def calculateRoiScenarios (inputs : RoiInputs) : Except String RoiOutput :=
  if inputs.nPeople ≤ 0 then
    Except.error "Number of people must be greater than 0"
  else if inputs.costPerHour < 0 then
    Except.error "Cost per hour cannot be negative"
  else
    Except.ok
      { low := calculateScenario (scaleInputs inputs (3 / 4))
        mostLikely := calculateScenario inputs
        high := calculateScenario (scaleInputs inputs (5 / 4)) }

/-- Whether a `calculateRoiScenarios` call raised (the source's `throw`
reaches the caller with no partial result; here, the `Except.error` case
carries no `RoiOutput`). -/
def isError : Except String RoiOutput → Bool
  | Except.error _ => true
  | Except.ok _ => false

/-- `validateRoiInputs` of `src/lib/roi-calculator.ts` (lines 102-137):
the sequence of `warnings.push` calls, embedded as the concatenation of
conditional singletons in the source's check order. -/
def validateRoiInputs (inputs : RoiInputs) : List String :=
  (if inputs.hoursSavedPerPersonPerMonth > 160 then
    ["Hours saved per month seems high (>160 hours)"] else []) ++
  (if inputs.costPerHour > 200 then
    ["Cost per hour seems high (>$200)"] else []) ++
  (if inputs.errorReductionPct > 0.9 then
    ["Error reduction >90% may be optimistic"] else []) ++
  (if inputs.cloudReductionPct > 0.5 then
    ["Cloud cost reduction >50% may be optimistic"] else []) ++
  (if inputs.riskReductionPct > 0.8 then
    ["Risk reduction >80% may be optimistic"] else []) ++
  (if (inputs.nPeople : ℚ) * inputs.hoursSavedPerPersonPerMonth * 12 * inputs.costPerHour +
      inputs.errorCostAnnual * inputs.errorReductionPct +
      inputs.cloudSpendAnnual * inputs.cloudReductionPct +
      inputs.riskCostAnnual * inputs.riskReductionPct < inputs.licenseCostAnnual then
    ["Total benefits may not justify license costs"] else [])

/-- The spec's closed-form `totalBenefit` (spec section 4.1):
`laborSavings + qualitySavings + cloudSavings + riskAvoidance`. -/
def specTotalBenefit (i : RoiInputs) : ℚ :=
  (i.nPeople : ℚ) * i.hoursSavedPerPersonPerMonth * 12 * i.costPerHour +
    i.errorCostAnnual * i.errorReductionPct +
    i.cloudSpendAnnual * i.cloudReductionPct +
    i.riskCostAnnual * i.riskReductionPct

/-- The spec's closed-form `totalCosts` (spec section 4.1):
`licenseCostAnnual + implementationOneTime`. -/
def specTotalCosts (i : RoiInputs) : ℚ :=
  i.licenseCostAnnual + i.implementationOneTime

/-- The ordered, independent reasonableness checks of spec section 4.1:
each pair is (condition fired, warning message), in the spec's check
order. -/
def specChecks (i : RoiInputs) : List (Bool × String) :=
  [ (decide (i.hoursSavedPerPersonPerMonth > 160),
      "Hours saved per month seems high (>160 hours)"),
    (decide (i.costPerHour > 200),
      "Cost per hour seems high (>$200)"),
    (decide (i.errorReductionPct > 0.9),
      "Error reduction >90% may be optimistic"),
    (decide (i.cloudReductionPct > 0.5),
      "Cloud cost reduction >50% may be optimistic"),
    (decide (i.riskReductionPct > 0.8),
      "Risk reduction >80% may be optimistic"),
    (decide (specTotalBenefit i < i.licenseCostAnnual),
      "Total benefits may not justify license costs") ]

/-- Modelled from the spec: `validateRoiInputs` as the spec describes it —
exactly the breached checks, each independent, in the fixed check order. -/
def specWarnings (i : RoiInputs) : List String :=
  ((specChecks i).filter (·.1)).map (·.2)

/-- The worked example of spec section 8. -/
def exampleInputs : RoiInputs :=
  { nPeople := 10
    costPerHour := 50
    hoursSavedPerPersonPerMonth := 5
    errorCostAnnual := 100000
    errorReductionPct := 3 / 10
    cloudSpendAnnual := 50000
    cloudReductionPct := 2 / 10
    riskCostAnnual := 20000
    riskReductionPct := 5 / 10
    licenseCostAnnual := 60000
    implementationOneTime := 10000 }

/-- A record with positive benefit and zero total cost: every field zero
except one quality-savings pair. -/
def zeroCostInputs : RoiInputs :=
  { nPeople := 1
    costPerHour := 0
    hoursSavedPerPersonPerMonth := 0
    errorCostAnnual := 12
    errorReductionPct := 1
    cloudSpendAnnual := 0
    cloudReductionPct := 0
    riskCostAnnual := 0
    riskReductionPct := 0
    licenseCostAnnual := 0
    implementationOneTime := 0 }

/-- A record with a negative (schema-violating) benefit term. -/
def negativeBenefitInputs : RoiInputs :=
  { nPeople := 1
    costPerHour := 0
    hoursSavedPerPersonPerMonth := 0
    errorCostAnnual := -100
    errorReductionPct := 1
    cloudSpendAnnual := 0
    cloudReductionPct := 0
    riskCostAnnual := 0
    riskReductionPct := 0
    licenseCostAnnual := 5
    implementationOneTime := 0 }

end RoiCalculator

namespace RoiCalculator

/-! ### Helper lemmas -/

/-- Evaluate `jsRound` from a bracketing of its argument. -/
theorem jsRound_eq (q : ℚ) (n : ℤ) (h₁ : (n : ℚ) ≤ q + 1 / 2)
    (h₂ : q + 1 / 2 < (n : ℚ) + 1) : jsRound q = n :=
  Int.floor_eq_iff.mpr ⟨h₁, h₂⟩

/-- Evaluate `round1` from a bracketing of its scaled argument. -/
theorem round1_eq (q : ℚ) (n : ℤ) (h₁ : (n : ℚ) ≤ q * 10 + 1 / 2)
    (h₂ : q * 10 + 1 / 2 < (n : ℚ) + 1) : round1 q = (n : ℚ) / 10 := by
  unfold round1
  rw [jsRound_eq (q * 10) n h₁ h₂]

theorem jsRound_le_jsRound {a b : ℚ} (h : a ≤ b) : jsRound a ≤ jsRound b :=
  Int.floor_le_floor (by linarith)

theorem jsRound_nonneg {q : ℚ} (h : 0 ≤ q) : 0 ≤ jsRound q :=
  Int.floor_nonneg.mpr (by linarith)

theorem round1_nonneg {q : ℚ} (h : 0 ≤ q) : 0 ≤ round1 q := by
  unfold round1
  have := jsRound_nonneg (q := q * 10) (by linarith)
  positivity

/-- The `totalBenefit` field of a computed scenario is the spec's closed
form, rounded once. -/
theorem calculateScenario_totalBenefit (i : RoiInputs) :
    (calculateScenario i).totalBenefit = jsRound (specTotalBenefit i) := rfl

/-- The `year1Net` field of a computed scenario is the spec's closed form,
rounded once. -/
theorem calculateScenario_year1Net (i : RoiInputs) :
    (calculateScenario i).year1Net =
      jsRound (specTotalBenefit i - specTotalCosts i) := rfl

/-- The `roiPct` field of a computed scenario is the spec's guarded closed
form, rounded once to one decimal. -/
theorem calculateScenario_roiPct (i : RoiInputs) :
    (calculateScenario i).roiPct =
      round1 (if specTotalCosts i > 0
        then (specTotalBenefit i - specTotalCosts i) / specTotalCosts i * 100
        else 0) := rfl

/-- The `paybackMonths` field of a computed scenario is the spec's guarded
closed form with the unbounded sentinel, rounded once to one decimal. -/
theorem calculateScenario_paybackMonths (i : RoiInputs) :
    (calculateScenario i).paybackMonths =
      (if specTotalBenefit i / 12 > 0
        then some (specTotalCosts i / (specTotalBenefit i / 12))
        else none).map round1 := rfl

/-- Full evaluation of the spec's worked example. -/
theorem exampleScenario_eq :
    calculateScenario exampleInputs =
      { totalBenefit := 80000
        year1Net := 10000
        roiPct := 143 / 10
        paybackMonths := some (21 / 2) } := by
  have hb : specTotalBenefit exampleInputs = 80000 := by
    norm_num [specTotalBenefit, exampleInputs]
  have hc : specTotalCosts exampleInputs = 70000 := by
    norm_num [specTotalCosts, exampleInputs]
  have h1 : (calculateScenario exampleInputs).totalBenefit = 80000 := by
    rw [calculateScenario_totalBenefit, hb]
    exact jsRound_eq 80000 80000 (by norm_num) (by norm_num)
  have h2 : (calculateScenario exampleInputs).year1Net = 10000 := by
    rw [calculateScenario_year1Net, hb, hc]
    norm_num
    exact jsRound_eq 10000 10000 (by norm_num) (by norm_num)
  have h3 : (calculateScenario exampleInputs).roiPct = 143 / 10 := by
    rw [calculateScenario_roiPct, hb, hc, if_pos (by norm_num)]
    have harg : ((80000 : ℚ) - 70000) / 70000 * 100 = 100 / 7 := by norm_num
    rw [harg, round1_eq (100 / 7) 143 (by norm_num) (by norm_num)]
    norm_num
  have h4 : (calculateScenario exampleInputs).paybackMonths = some (21 / 2) := by
    rw [calculateScenario_paybackMonths, hb, hc, if_pos (by norm_num)]
    have harg : (70000 : ℚ) / (80000 / 12) = 21 / 2 := by norm_num
    simp only [Option.map]
    rw [harg, round1_eq (21 / 2) 105 (by norm_num) (by norm_num)]
    norm_num
  exact RoiScenario.ext h1 h2 h3 h4

/-- When both validation guards pass, `calculateRoiScenarios` returns the
three scenarios built with the 0.75 / 1.00 / 1.25 factors. -/
theorem calculateRoiScenarios_eq_ok (i : RoiInputs) (h₁ : ¬ i.nPeople ≤ 0)
    (h₂ : ¬ i.costPerHour < 0) :
    calculateRoiScenarios i = Except.ok
      { low := calculateScenario (scaleInputs i (3 / 4))
        mostLikely := calculateScenario i
        high := calculateScenario (scaleInputs i (5 / 4)) } := by
  unfold calculateRoiScenarios
  rw [if_neg h₁, if_neg h₂]

end RoiCalculator

namespace RoiCalculator

/-! ### Claim theorems -/

/-- C1: For every `RoiInputs` record, `calculateScenario` returns exactly
the spec's closed-form values — `totalBenefit` as the sum of the four
savings terms, `year1Net = totalBenefit - totalCosts`, the guarded
`roiPct`, the guarded `paybackMonths` — with rounding applied exactly once
at output construction (`jsRound` for monetary fields, `round1` for the
two ratios); and on the spec's worked example the mostLikely scenario has
`totalBenefit = 80000`, `year1Net = 10000`, `roiPct = 14.3` and
`paybackMonths = 10.5`. -/
theorem roi_C1_closed_form :
    (∀ i : RoiInputs,
      (calculateScenario i).totalBenefit = jsRound (specTotalBenefit i) ∧
      (calculateScenario i).year1Net =
        jsRound (specTotalBenefit i - specTotalCosts i) ∧
      (calculateScenario i).roiPct =
        round1 (if specTotalCosts i > 0
          then (specTotalBenefit i - specTotalCosts i) / specTotalCosts i * 100
          else 0) ∧
      (calculateScenario i).paybackMonths =
        (if specTotalBenefit i / 12 > 0
          then some (specTotalCosts i / (specTotalBenefit i / 12))
          else none).map round1) ∧
    (calculateScenario exampleInputs).totalBenefit = 80000 ∧
    (calculateScenario exampleInputs).year1Net = 10000 ∧
    (calculateScenario exampleInputs).roiPct = 143 / 10 ∧
    (calculateScenario exampleInputs).paybackMonths = some (21 / 2) := by
  refine ⟨fun i => ⟨rfl, rfl, rfl, rfl⟩, ?_, ?_, ?_, ?_⟩ <;> rw [exampleScenario_eq]

/-- C4: `scaleInputs` scales exactly the benefit-driving fields —
`hoursSavedPerPersonPerMonth` with no ceiling, the three reduction
percentages clamped at 1.0 — and leaves every other field (both cost
fields, `nPeople`, `costPerHour`, and the three annual amounts)
unchanged. -/
theorem roi_C4_scaleInputs_frame (i : RoiInputs) (f : ℚ) :
    (scaleInputs i f).hoursSavedPerPersonPerMonth =
      i.hoursSavedPerPersonPerMonth * f ∧
    (scaleInputs i f).errorReductionPct = min 1 (i.errorReductionPct * f) ∧
    (scaleInputs i f).cloudReductionPct = min 1 (i.cloudReductionPct * f) ∧
    (scaleInputs i f).riskReductionPct = min 1 (i.riskReductionPct * f) ∧
    (scaleInputs i f).nPeople = i.nPeople ∧
    (scaleInputs i f).costPerHour = i.costPerHour ∧
    (scaleInputs i f).errorCostAnnual = i.errorCostAnnual ∧
    (scaleInputs i f).cloudSpendAnnual = i.cloudSpendAnnual ∧
    (scaleInputs i f).riskCostAnnual = i.riskCostAnnual ∧
    (scaleInputs i f).licenseCostAnnual = i.licenseCostAnnual ∧
    (scaleInputs i f).implementationOneTime = i.implementationOneTime :=
  ⟨rfl, rfl, rfl, rfl, rfl, rfl, rfl, rfl, rfl, rfl, rfl⟩

/-- C6: whenever `licenseCostAnnual + implementationOneTime = 0`, the
division in `roiPct` is guarded and the field is exactly `0`, whatever the
benefit value (the embedding over `ℚ` has no `NaN`/`Infinity` to
produce). -/
theorem roi_C6_zero_cost_roi (i : RoiInputs)
    (h : i.licenseCostAnnual + i.implementationOneTime = 0) :
    (calculateScenario i).roiPct = 0 := by
  rw [calculateScenario_roiPct]
  have hc : specTotalCosts i = 0 := h
  rw [hc, if_neg (by norm_num)]
  rw [round1_eq 0 0 (by norm_num) (by norm_num)]
  norm_num

/-- Witness for C6: a concrete record with zero total cost and positive
benefit gets `roiPct = 0`. -/
theorem roi_C6_zero_cost_roi_witness :
    (calculateScenario zeroCostInputs).roiPct = 0 :=
  roi_C6_zero_cost_roi zeroCostInputs (by norm_num [zeroCostInputs])

/-- C8: whenever `calculateRoiScenarios` returns an output, its
`mostLikely` scenario is exactly `calculateScenario` applied directly to
the unscaled (factor 1.0) inputs. -/
theorem roi_C8_mostLikely_roundtrip (i : RoiInputs) (o : RoiOutput)
    (h : calculateRoiScenarios i = Except.ok o) :
    o.mostLikely = calculateScenario i := by
  by_cases h₁ : i.nPeople ≤ 0
  · unfold calculateRoiScenarios at h
    rw [if_pos h₁] at h
    exact Except.noConfusion h
  · by_cases h₂ : i.costPerHour < 0
    · unfold calculateRoiScenarios at h
      rw [if_neg h₁, if_pos h₂] at h
      exact Except.noConfusion h
    · rw [calculateRoiScenarios_eq_ok i h₁ h₂] at h
      injection h with h'
      subst h'
      rfl

/-- Witness for C8 at the spec's worked example. -/
theorem roi_C8_mostLikely_roundtrip_witness :
    ({ low := calculateScenario (scaleInputs exampleInputs (3 / 4))
       mostLikely := calculateScenario exampleInputs
       high := calculateScenario (scaleInputs exampleInputs (5 / 4)) } :
      RoiOutput).mostLikely = calculateScenario exampleInputs :=
  roi_C8_mostLikely_roundtrip exampleInputs _
    (calculateRoiScenarios_eq_ok exampleInputs (by norm_num [exampleInputs])
      (by norm_num [exampleInputs]))

/-- C9: `calculateRoiScenarios` is deterministic and stateless — in the
embedding it is a pure function of its input record, so any two calls on
equal records return equal outputs. -/
theorem roi_C9_deterministic (i₁ i₂ : RoiInputs) (h : i₁ = i₂) :
    calculateRoiScenarios i₁ = calculateRoiScenarios i₂ := by
  rw [h]

/-- Witness for C9 at the spec's worked example. -/
theorem roi_C9_deterministic_witness :
    calculateRoiScenarios exampleInputs = calculateRoiScenarios exampleInputs :=
  roi_C9_deterministic exampleInputs exampleInputs rfl

/-- C10: under the `RoiInputs` schema constraints both error branches are
unreachable and a full `RoiOutput` is returned. -/
theorem roi_C10_total_on_valid (i : RoiInputs) (hval : schemaValid i) :
    ∃ o : RoiOutput, calculateRoiScenarios i = Except.ok o := by
  obtain ⟨h₁, h₂, -⟩ := hval
  exact ⟨_, calculateRoiScenarios_eq_ok i (by omega) (not_lt.mpr h₂)⟩

/-- Witness for C10 at the spec's worked example. -/
theorem roi_C10_total_on_valid_witness :
    ∃ o : RoiOutput, calculateRoiScenarios exampleInputs = Except.ok o :=
  roi_C10_total_on_valid exampleInputs (by norm_num [schemaValid, exampleInputs])

end RoiCalculator

namespace RoiCalculator

/-! ### Monotonicity helpers for the sensitivity band -/

theorem specTotalBenefit_scaleInputs (i : RoiInputs) (f : ℚ) :
    specTotalBenefit (scaleInputs i f) =
      (i.nPeople : ℚ) * (i.hoursSavedPerPersonPerMonth * f) * 12 * i.costPerHour +
        i.errorCostAnnual * min 1 (i.errorReductionPct * f) +
        i.cloudSpendAnnual * min 1 (i.cloudReductionPct * f) +
        i.riskCostAnnual * min 1 (i.riskReductionPct * f) := rfl

theorem specTotalBenefit_scale_mono (i : RoiInputs) (f₁ f₂ : ℚ)
    (hn : 1 ≤ i.nPeople) (hc : 0 ≤ i.costPerHour)
    (hh : 0 ≤ i.hoursSavedPerPersonPerMonth)
    (he : 0 ≤ i.errorCostAnnual) (hep : 0 ≤ i.errorReductionPct)
    (hcl : 0 ≤ i.cloudSpendAnnual) (hcp : 0 ≤ i.cloudReductionPct)
    (hr : 0 ≤ i.riskCostAnnual) (hrp : 0 ≤ i.riskReductionPct)
    (hf : f₁ ≤ f₂) :
    specTotalBenefit (scaleInputs i f₁) ≤ specTotalBenefit (scaleInputs i f₂) := by
  rw [specTotalBenefit_scaleInputs, specTotalBenefit_scaleInputs]
  have hnq : (0 : ℚ) ≤ (i.nPeople : ℚ) := by
    have : (0 : ℤ) ≤ i.nPeople := by omega
    exact_mod_cast this
  have t₁ : (i.nPeople : ℚ) * (i.hoursSavedPerPersonPerMonth * f₁) * 12 * i.costPerHour ≤
      (i.nPeople : ℚ) * (i.hoursSavedPerPersonPerMonth * f₂) * 12 * i.costPerHour := by
    have key : ∀ f : ℚ,
        (i.nPeople : ℚ) * (i.hoursSavedPerPersonPerMonth * f) * 12 * i.costPerHour =
          (i.nPeople : ℚ) * i.hoursSavedPerPersonPerMonth * 12 * i.costPerHour * f := by
      intro f; ring
    rw [key, key]
    exact mul_le_mul_of_nonneg_left hf
      (mul_nonneg (mul_nonneg (mul_nonneg hnq hh) (by norm_num)) hc)
  have t₂ : i.errorCostAnnual * min 1 (i.errorReductionPct * f₁) ≤
      i.errorCostAnnual * min 1 (i.errorReductionPct * f₂) :=
    mul_le_mul_of_nonneg_left
      (min_le_min (le_refl 1) (mul_le_mul_of_nonneg_left hf hep)) he
  have t₃ : i.cloudSpendAnnual * min 1 (i.cloudReductionPct * f₁) ≤
      i.cloudSpendAnnual * min 1 (i.cloudReductionPct * f₂) :=
    mul_le_mul_of_nonneg_left
      (min_le_min (le_refl 1) (mul_le_mul_of_nonneg_left hf hcp)) hcl
  have t₄ : i.riskCostAnnual * min 1 (i.riskReductionPct * f₁) ≤
      i.riskCostAnnual * min 1 (i.riskReductionPct * f₂) :=
    mul_le_mul_of_nonneg_left
      (min_le_min (le_refl 1) (mul_le_mul_of_nonneg_left hf hrp)) hr
  exact add_le_add (add_le_add (add_le_add t₁ t₂) t₃) t₄

theorem specTotalBenefit_scale_one (i : RoiInputs)
    (hep : i.errorReductionPct ≤ 1) (hcp : i.cloudReductionPct ≤ 1)
    (hrp : i.riskReductionPct ≤ 1) :
    specTotalBenefit (scaleInputs i 1) = specTotalBenefit i := by
  rw [specTotalBenefit_scaleInputs]
  unfold specTotalBenefit
  rw [mul_one, mul_one, mul_one, mul_one,
    min_eq_right hep, min_eq_right hcp, min_eq_right hrp]

end RoiCalculator

namespace RoiCalculator

/-- C5: for every schema-valid record, the three scenarios returned by
`calculateRoiScenarios` have ordered total benefits under the fixed
0.75 / 1.00 / 1.25 band; and the 1.0 ceiling clamps an optimistic
`errorReductionPct` of 0.9 to exactly 1 (not 1.125), so clamping can only
make scenarios coincide, never invert the order. -/
theorem roi_C5_scenario_ordering :
    (∀ (i : RoiInputs) (o : RoiOutput), schemaValid i →
      calculateRoiScenarios i = Except.ok o →
      o.low.totalBenefit ≤ o.mostLikely.totalBenefit ∧
      o.mostLikely.totalBenefit ≤ o.high.totalBenefit) ∧
    (scaleInputs { exampleInputs with errorReductionPct := 9 / 10 }
      (5 / 4)).errorReductionPct = 1 := by
  constructor
  · intro i o hval hok
    obtain ⟨hn, hc, hh, he, hep0, hep1, hcl, hcp0, hcp1, hr, hrp0, hrp1, hl, hm⟩ := hval
    rw [calculateRoiScenarios_eq_ok i (by omega) (not_lt.mpr hc)] at hok
    injection hok with hok'
    subst hok'
    have hone : specTotalBenefit (scaleInputs i 1) = specTotalBenefit i :=
      specTotalBenefit_scale_one i hep1 hcp1 hrp1
    have hlow : specTotalBenefit (scaleInputs i (3 / 4)) ≤ specTotalBenefit i := by
      rw [← hone]
      exact specTotalBenefit_scale_mono i (3 / 4) 1
        hn hc hh he hep0 hcl hcp0 hr hrp0 (by norm_num)
    have hhigh : specTotalBenefit i ≤ specTotalBenefit (scaleInputs i (5 / 4)) := by
      rw [← hone]
      exact specTotalBenefit_scale_mono i 1 (5 / 4)
        hn hc hh he hep0 hcl hcp0 hr hrp0 (by norm_num)
    exact ⟨jsRound_le_jsRound hlow, jsRound_le_jsRound hhigh⟩
  · show min 1 ((9 : ℚ) / 10 * (5 / 4)) = 1
    rw [min_eq_left (by norm_num)]

/-- Witness for C5 at the spec's worked example. -/
theorem roi_C5_scenario_ordering_witness :
    (calculateScenario (scaleInputs exampleInputs (3 / 4))).totalBenefit ≤
      (calculateScenario exampleInputs).totalBenefit ∧
    (calculateScenario exampleInputs).totalBenefit ≤
      (calculateScenario (scaleInputs exampleInputs (5 / 4))).totalBenefit :=
  roi_C5_scenario_ordering.1 exampleInputs _
    (by norm_num [schemaValid, exampleInputs])
    (calculateRoiScenarios_eq_ok exampleInputs (by norm_num [exampleInputs])
      (by norm_num [exampleInputs]))

end RoiCalculator

namespace RoiCalculator

/-- C2: `calculateRoiScenarios` raises exactly when `nPeople < 1` (over the
schema's integer `nPeople` this is the source's `nPeople <= 0` check) or
`costPerHour < 0`; in the `Except` embedding an error carries no partial
output. In particular it fails for `nPeople = 0` and for
`costPerHour = -1`, and succeeds for `nPeople = 1, costPerHour = 0`. -/
theorem roi_C2_invalid_input_iff :
    (∀ i : RoiInputs,
      isError (calculateRoiScenarios i) = true ↔
        (i.nPeople < 1 ∨ i.costPerHour < 0)) ∧
    isError (calculateRoiScenarios { exampleInputs with nPeople := 0 }) = true ∧
    isError (calculateRoiScenarios { exampleInputs with costPerHour := -1 }) = true ∧
    isError (calculateRoiScenarios
      { exampleInputs with nPeople := 1, costPerHour := 0 }) = false := by
  refine ⟨fun i => ?_, ?_, ?_, ?_⟩
  · unfold calculateRoiScenarios
    by_cases h₁ : i.nPeople ≤ 0
    · rw [if_pos h₁]
      exact ⟨fun _ => Or.inl (by omega), fun _ => rfl⟩
    · rw [if_neg h₁]
      by_cases h₂ : i.costPerHour < 0
      · rw [if_pos h₂]
        exact ⟨fun _ => Or.inr h₂, fun _ => rfl⟩
      · rw [if_neg h₂]
        constructor
        · intro hfalse
          exact absurd hfalse (by simp [isError])
        · rintro (h | h)
          · exact absurd h (by omega)
          · exact absurd h h₂
  · unfold calculateRoiScenarios
    rw [if_pos (by norm_num [exampleInputs])]
    rfl
  · unfold calculateRoiScenarios
    rw [if_neg (by norm_num [exampleInputs]), if_pos (by norm_num [exampleInputs])]
    rfl
  · unfold calculateRoiScenarios
    rw [if_neg (by norm_num [exampleInputs]), if_neg (by norm_num [exampleInputs])]
    rfl

/-- Counterexample to C3 as stated: at `zeroCostInputs` the total benefit
is `12 ≠ 0` yet `paybackMonths` is `0` (not a positive number), and at
`negativeBenefitInputs` the total benefit is `-100 ≠ 0` yet
`paybackMonths` is the unbounded sentinel. -/
theorem roi_C3_counterexample :
    (calculateScenario zeroCostInputs).paybackMonths = some 0 ∧
    specTotalBenefit zeroCostInputs = 12 ∧
    (calculateScenario negativeBenefitInputs).paybackMonths = none ∧
    specTotalBenefit negativeBenefitInputs = -100 := by
  refine ⟨?_, by norm_num [specTotalBenefit, zeroCostInputs], ?_,
    by norm_num [specTotalBenefit, negativeBenefitInputs]⟩
  · rw [calculateScenario_paybackMonths]
    have hb : specTotalBenefit zeroCostInputs = 12 := by
      norm_num [specTotalBenefit, zeroCostInputs]
    have hc : specTotalCosts zeroCostInputs = 0 := by
      norm_num [specTotalCosts, zeroCostInputs]
    rw [hb, hc, if_pos (by norm_num)]
    simp only [Option.map]
    have harg : (0 : ℚ) / (12 / 12) = 0 := by norm_num
    rw [harg, round1_eq 0 0 (by norm_num) (by norm_num)]
    norm_num
  · rw [calculateScenario_paybackMonths]
    have hb : specTotalBenefit negativeBenefitInputs = -100 := by
      norm_num [specTotalBenefit, negativeBenefitInputs]
    rw [hb, if_neg (by norm_num)]
    rfl

/-- C3 as amended: `paybackMonths` is the unbounded sentinel exactly when
the total benefit is `≤ 0` (equal to `0` for schema-valid records), and
every finite value is nonnegative provided the cost fields are
nonnegative — it can be `0`, e.g. when total costs are `0`. It is never a
numeric error value (the guarded `Option` embedding has none). -/
theorem roi_C3_payback_sentinel_amended (i : RoiInputs) :
    ((calculateScenario i).paybackMonths = none ↔ specTotalBenefit i ≤ 0) ∧
    (0 ≤ specTotalCosts i →
      ∀ q : ℚ, (calculateScenario i).paybackMonths = some q → 0 ≤ q) := by
  rw [calculateScenario_paybackMonths]
  by_cases h : specTotalBenefit i / 12 > 0
  · have hE : 0 < specTotalBenefit i := by
      by_contra hcon
      push_neg at hcon
      have : specTotalBenefit i / 12 ≤ 0 := by linarith
      linarith
    rw [if_pos h]
    constructor
    · simp only [Option.map]
      constructor
      · intro hnone; exact Option.noConfusion hnone
      · intro hle; linarith
    · intro hC q hq
      simp only [Option.map] at hq
      injection hq with hq'
      rw [← hq']
      exact round1_nonneg (div_nonneg hC (le_of_lt h))
  · rw [if_neg h]
    push_neg at h
    constructor
    · simp only [Option.map]
      exact ⟨fun _ => by linarith, fun _ => trivial⟩
    · intro _ q hq
      exact Option.noConfusion hq

/-- Witness for the amended C3 at the spec's worked example. -/
theorem roi_C3_payback_sentinel_amended_witness :
    (0 ≤ specTotalCosts exampleInputs ∧
      (calculateScenario exampleInputs).paybackMonths = some (21 / 2)) ∧
    (0 : ℚ) ≤ 21 / 2 := by
  have h₁ : 0 ≤ specTotalCosts exampleInputs := by
    norm_num [specTotalCosts, exampleInputs]
  have h₂ : (calculateScenario exampleInputs).paybackMonths = some (21 / 2) := by
    rw [exampleScenario_eq]
  exact ⟨⟨h₁, h₂⟩,
    (roi_C3_payback_sentinel_amended exampleInputs).2 h₁ (21 / 2) h₂⟩

end RoiCalculator

namespace RoiCalculator

/-- C7: `validateRoiInputs` returns exactly the breached warnings, each
check independent, in the fixed check order (it coincides with filtering
the ordered `specChecks` list); the spec's worked example yields no
warnings, and raising `costPerHour` to 250 adds exactly the
"cost per hour seems high" warning. -/
theorem roi_C7_warnings :
    (∀ i : RoiInputs, validateRoiInputs i = specWarnings i) ∧
    validateRoiInputs exampleInputs = [] ∧
    validateRoiInputs { exampleInputs with costPerHour := 250 } =
      ["Cost per hour seems high (>$200)"] := by
  refine ⟨fun i => ?_, ?_, ?_⟩
  · by_cases h₁ : i.hoursSavedPerPersonPerMonth > 160 <;>
    by_cases h₂ : i.costPerHour > 200 <;>
    by_cases h₃ : i.errorReductionPct > 0.9 <;>
    by_cases h₄ : i.cloudReductionPct > 0.5 <;>
    by_cases h₅ : i.riskReductionPct > 0.8 <;>
    by_cases h₆ : (i.nPeople : ℚ) * i.hoursSavedPerPersonPerMonth * 12 * i.costPerHour +
        i.errorCostAnnual * i.errorReductionPct +
        i.cloudSpendAnnual * i.cloudReductionPct +
        i.riskCostAnnual * i.riskReductionPct < i.licenseCostAnnual <;>
    simp [validateRoiInputs, specWarnings, specChecks, specTotalBenefit,
      h₁, h₂, h₃, h₄, h₅, h₆]
  · norm_num [validateRoiInputs, exampleInputs]
  · norm_num [validateRoiInputs, exampleInputs]

end RoiCalculator
